import Mathlib

/-!
Shallow embedding of the whisper.cpp JNI bridge
(`app/src/main/cpp/whisper_jni.cpp`) and its fallback stub
(`app/src/main/cpp/whisper_jni_stub.cpp`).

The bridge keeps one global model context (`g_ctx`) and one global
parameter record (`g_params`), both guarded by a single mutex; since the
mutex serializes every operation, each JNI entry point is modelled as a
pure function on an explicit `BridgeState`, with the outcomes of the
external calls (JNI string decoding, `whisper_init_from_file_with_params`,
`fopen`/`fread`, `whisper_full` and the segment texts it yields) supplied
as explicit environment records.  Bytes are naturals below 256; the
16-bit samples are `Int`; the float `sample / 32768.0f` is represented
exactly as a rational, which is faithful because every `int16` value is
exactly representable in binary32 and division by the power of two
2^15 is exact there.
-/

namespace WhisperJNI

/-- Reassemble a 16-bit little-endian signed integer from two bytes, as
`fread(&sample, sizeof(int16_t), 1, file)` does on a little-endian
target: low byte first, two's complement. -/
def toInt16 (lo hi : Nat) : Int :=
  let u := lo + 256 * hi
  if u < 32768 then (u : Int) else (u : Int) - 65536

/-- The read loop of the WAV block in `transcribe`: consume consecutive
2-byte little-endian signed integers until fewer than two bytes remain
(`fread` returns 0 complete elements on a trailing odd byte). -/
def readSamples : List Nat → List Int
  | lo :: hi :: rest => toInt16 lo hi :: readSamples rest
  | _ => []

/-- The WAV decoder inside `transcribe`: `fseek(file, 44, SEEK_SET)`
skips the first 44 bytes unconditionally, then the read loop runs to
end-of-file. -/
def decodeWav (bytes : List Nat) : List Int :=
  readSamples (bytes.drop 44)

/-- The `pcm_data` vector built by `transcribe`: each decoded sample is
converted to float and divided by 32768.0f (exact, hence a rational). -/
def pcmData (bytes : List Nat) : List Rat :=
  (decodeWav bytes).map (fun s : Int => (s : Rat) / 32768)

/-- Little-endian 2-byte encoding of a sample value, the inverse layout
of what `fread` into an `int16_t` consumes. -/
def encodeSample (s : Int) : List Nat :=
  [(s % 65536).toNat % 256, (s % 65536).toNat / 256]

/-- Byte stream holding a list of samples, each as 2 little-endian
bytes. -/
def encodeSamples : List Int → List Nat
  | [] => []
  | s :: rest => encodeSample s ++ encodeSamples rest

/-- `struct whisper_params` with its member initializers
(`whisper_jni.cpp`, the anonymous namespace). -/
structure whisper_params where
  n_threads : Int := 4
  offset_ms : Int := 0
  duration_ms : Int := 0
  translate : Bool := false
  print_special : Bool := false
  print_progress : Bool := false
  no_timestamps : Bool := true
  language : String := "en"
deriving DecidableEq, Repr

/-- The process-wide mutable state of the bridge: `g_ctx` (an opaque
context pointer, modelled as an optional numeric handle) and
`g_params`. -/
structure BridgeState where
  g_ctx : Option Nat
  params : whisper_params
deriving DecidableEq, Repr

/-- The state at process start: `g_ctx = nullptr`, `g_params` with the
member initializers of `whisper_params`. -/
def defaultState : BridgeState := ⟨none, {}⟩

/-- Outcomes of the external calls one `initModel` invocation makes:
`GetStringUTFChars` on the model path (null means decode failure),
`whisper_init_from_file_with_params` (null means load failure, otherwise
the new context handle), and `std::thread::hardware_concurrency()`. -/
structure InitEnv where
  pathDecode : Option String
  loadResult : Option Nat
  nCores : Nat
deriving DecidableEq, Repr

/-- Observable side effects of one `initModel` invocation: the context
handles passed to `whisper_free`, and whether
`whisper_init_from_file_with_params` was reached. -/
structure InitEffects where
  freed : List Nat
  loadAttempted : Bool
deriving DecidableEq, Repr

/-- `Java_..._initModel`: under the lock, first free any existing
context and null the pointer; then decode the path (on null return -1);
then load the model (on null return -2); on success set
`g_params.n_threads = min(hardware_concurrency(), 4)` and return 0. -/
def initModel (st : BridgeState) (env : InitEnv) :
    Int × BridgeState × InitEffects :=
  let freed := st.g_ctx.toList
  let st1 : BridgeState := { st with g_ctx := none }
  match env.pathDecode with
  | none => (-1, st1, ⟨freed, false⟩)
  | some _ =>
    match env.loadResult with
    | none => (-2, st1, ⟨freed, true⟩)
    | some h =>
      (0,
       ⟨some h, { st1.params with n_threads := min (env.nCores : Int) 4 }⟩,
       ⟨freed, true⟩)

/-- Outcomes of the external calls one `transcribe` invocation makes:
`GetStringUTFChars` on the audio path, `fopen` (null means open failure,
otherwise the file's bytes), the status of `whisper_full`, and the
segment texts (`whisper_full_get_segment_text`, null allowed). -/
structure TranscribeEnv where
  pathDecode : Option String
  fileContents : Option (List Nat)
  engineStatus : Int
  segments : List (Option String)
deriving DecidableEq, Repr

/-- Observable side effects of one `transcribe` invocation: whether
`whisper_full` was invoked and whether `fopen` was reached. -/
structure TranscribeEffects where
  engineCalled : Bool
  fileAccessed : Bool
deriving DecidableEq, Repr

/-- The segment-collection loop of `transcribe`: concatenate every
non-null segment text in order, starting from the empty string. -/
def segmentsText (segs : List (Option String)) : String :=
  segs.foldl (fun acc o => match o with | some t => acc ++ t | none => acc) ""

/-- `Java_..._transcribe`: under the lock, return "" if `g_ctx` is null;
return "" if the audio path fails to decode; open the file (on failure
return ""); decode the WAV bytes; return "" if no samples were read;
run `whisper_full` (on nonzero status return ""); otherwise concatenate
the segment texts. -/
def transcribe (st : BridgeState) (env : TranscribeEnv) :
    String × TranscribeEffects :=
  match st.g_ctx with
  | none => ("", ⟨false, false⟩)
  | some _ =>
    match env.pathDecode with
    | none => ("", ⟨false, false⟩)
    | some _ =>
      match env.fileContents with
      | none => ("", ⟨false, true⟩)
      | some bytes =>
        let pcm := pcmData bytes
        if pcm.isEmpty then
          ("", ⟨false, true⟩)
        else if env.engineStatus ≠ 0 then
          ("", ⟨true, true⟩)
        else
          (segmentsText env.segments, ⟨true, true⟩)

/-- The parameter-update block of `Java_..._transcribeWithParams`: set
`g_params.language` only if the language string decodes, set
`g_params.translate` unconditionally, set `g_params.n_threads` only if
the supplied value is positive. -/
def updateParams (p : whisper_params) (langDecode : Option String)
    (translate : Bool) (threads : Int) : whisper_params :=
  let p1 := match langDecode with
    | some l => { p with language := l }
    | none => p
  let p2 := { p1 with translate := translate }
  if 0 < threads then { p2 with n_threads := threads } else p2

/-- `Java_..._transcribeWithParams`: update `g_params` under the lock,
then delegate to `transcribe` on the updated state. -/
def transcribeWithParams (st : BridgeState) (langDecode : Option String)
    (translate : Bool) (threads : Int) (env : TranscribeEnv) :
    String × BridgeState × TranscribeEffects :=
  let st2 : BridgeState :=
    { st with params := updateParams st.params langDecode translate threads }
  let r := transcribe st2 env
  (r.1, st2, r.2)

/-- `Java_..._releaseModel`: under the lock, free the context if present
and null the pointer; parameters are untouched; no return value. -/
def releaseModel (st : BridgeState) : BridgeState :=
  { st with g_ctx := none }

/-- One observable transition of the bridge state: any `initModel`, any
`transcribeWithParams`, any `releaseModel` (plain `transcribe` does not
change the state). -/
inductive Step : BridgeState → BridgeState → Prop where
  | init (st : BridgeState) (env : InitEnv) :
      Step st (initModel st env).2.1
  | override (st : BridgeState) (langDecode : Option String)
      (translate : Bool) (threads : Int) (env : TranscribeEnv) :
      Step st (transcribeWithParams st langDecode translate threads env).2.1
  | release (st : BridgeState) : Step st (releaseModel st)

/-- Transitions restricted to runs where `hardware_concurrency()` is
positive at every `initModel` call. -/
inductive StepPos : BridgeState → BridgeState → Prop where
  | init (st : BridgeState) (env : InitEnv) (hc : 1 ≤ env.nCores) :
      StepPos st (initModel st env).2.1
  | override (st : BridgeState) (langDecode : Option String)
      (translate : Bool) (threads : Int) (env : TranscribeEnv) :
      StepPos st (transcribeWithParams st langDecode translate threads env).2.1
  | release (st : BridgeState) : StepPos st (releaseModel st)

/-- `whisper_jni_stub.cpp` `initModel`: log a warning and return -1;
no path decode, no engine, no filesystem access. -/
def stub_initModel (modelPath : String) : Int × TranscribeEffects :=
  (-1, ⟨false, false⟩)

/-- `whisper_jni_stub.cpp` `transcribe`: log and return the empty
string; no engine, no filesystem access. -/
def stub_transcribe (audioPath : String) : String × TranscribeEffects :=
  ("", ⟨false, false⟩)

/-- `whisper_jni_stub.cpp` `transcribeWithParams`: log and return the
empty string; no engine, no filesystem access. -/
def stub_transcribeWithParams (audioPath lang : String)
    (translate : Bool) (threads : Int) : String × TranscribeEffects :=
  ("", ⟨false, false⟩)

/-- `whisper_jni_stub.cpp` `releaseModel`: log only; no state, no
effects. -/
def stub_releaseModel : Unit × TranscribeEffects :=
  ((), ⟨false, false⟩)

/-- `whisper_jni_stub.cpp` `getVersion`: a fixed placeholder string. -/
def stub_getVersion : String :=
  "stub-1.0 (whisper.cpp not available)"

/-! ### Helper lemmas -/

/-- Decoding the 2-byte little-endian encoding of an in-range sample
recovers the sample. -/
theorem toInt16_encode (s : Int) (h1 : -32768 ≤ s) (h2 : s < 32768) :
    toInt16 ((s % 65536).toNat % 256) ((s % 65536).toNat / 256) = s := by
  unfold toInt16
  dsimp only
  split <;> omega

/-- The read loop inverts the sample encoding, for in-range samples. -/
theorem readSamples_encodeSamples (ss : List Int)
    (hb : ∀ s ∈ ss, -32768 ≤ s ∧ s < 32768) :
    readSamples (encodeSamples ss) = ss := by
  induction ss with
  | nil => rfl
  | cons a t ih =>
    have ha := hb a (List.mem_cons_self a t)
    have ht : ∀ s ∈ t, -32768 ≤ s ∧ s < 32768 := fun s hs =>
      hb s (List.mem_cons_of_mem a hs)
    show readSamples (encodeSample a ++ encodeSamples t) = a :: t
    unfold encodeSample
    show toInt16 ((a % 65536).toNat % 256) ((a % 65536).toNat / 256) ::
        readSamples (encodeSamples t) = a :: t
    rw [toInt16_encode a ha.1 ha.2, ih ht]

/-- Normalizing an in-range sample lands in the interval [-1, 1). -/
theorem sample_div_range (s : Int) (h1 : -32768 ≤ s) (h2 : s < 32768) :
    -1 ≤ (s : Rat) / 32768 ∧ (s : Rat) / 32768 < 1 := by
  constructor
  · rw [le_div_iff₀ (by norm_num : (0 : Rat) < 32768)]
    have hq : (-32768 : Rat) ≤ (s : Rat) := by exact_mod_cast h1
    linarith
  · rw [div_lt_one (by norm_num : (0 : Rat) < 32768)]
    exact_mod_cast h2

/-- Dropping 44 bytes from a 44-byte header followed by data leaves the
data. -/
theorem drop_header (header data : List Nat) (hlen : header.length = 44) :
    (header ++ data).drop 44 = data := by
  rw [← hlen, List.drop_left]

/-! ### Concrete fixtures -/

/-- A bridge state holding a loaded model context. -/
def stateWithHandle : BridgeState := ⟨some 7, {}⟩

/-- An `initModel` environment in which the path string fails to
decode. -/
def envPathFail : InitEnv := ⟨none, none, 0⟩

/-- A `transcribe` environment in which the audio path fails to decode,
so nothing beyond the path decode runs. -/
def envNoRun : TranscribeEnv := ⟨none, none, 0, []⟩

/-- A `transcribe` environment whose file holds a 44-byte header and
nothing else. -/
def envShortFile : TranscribeEnv := ⟨some "a", some (List.replicate 44 0), 0, []⟩

/-! ### Claim theorems -/

/-- C1: for every WAV file consisting of a 44-byte header followed by N
complete 2-byte little-endian signed samples, the WAV decoder inside
`transcribe` produces exactly N floats, the i-th float equal to the i-th
sample divided by 32768 (hence in [-1, 1)), preserving sample order. -/
theorem wav_decode_correct (header : List Nat) (ss : List Int)
    (hlen : header.length = 44)
    (hb : ∀ s ∈ ss, -32768 ≤ s ∧ s < 32768) :
    pcmData (header ++ encodeSamples ss) =
      ss.map (fun s : Int => (s : Rat) / 32768) ∧
    (pcmData (header ++ encodeSamples ss)).length = ss.length ∧
    ∀ q ∈ pcmData (header ++ encodeSamples ss), -1 ≤ q ∧ q < 1 := by
  have hmap : pcmData (header ++ encodeSamples ss) =
      ss.map (fun s : Int => (s : Rat) / 32768) := by
    unfold pcmData decodeWav
    rw [drop_header header (encodeSamples ss) hlen,
      readSamples_encodeSamples ss hb]
  refine ⟨hmap, ?_, ?_⟩
  · rw [hmap, List.length_map]
  · intro q hq
    rw [hmap] at hq
    obtain ⟨s, hs, hqs⟩ := List.mem_map.mp hq
    obtain ⟨h1, h2⟩ := hb s hs
    exact hqs ▸ sample_div_range s h1 h2

/-- C1 witness: a concrete header plus the samples 1, -1 and -32768. -/
theorem wav_decode_correct_witness :
    pcmData (List.replicate 44 0 ++ encodeSamples [1, -1, -32768]) =
      ([1, -1, -32768] : List Int).map (fun s : Int => (s : Rat) / 32768) ∧
    (pcmData (List.replicate 44 0 ++ encodeSamples [1, -1, -32768])).length =
      ([1, -1, -32768] : List Int).length ∧
    ∀ q ∈ pcmData (List.replicate 44 0 ++ encodeSamples [1, -1, -32768]),
      -1 ≤ q ∧ q < 1 :=
  wav_decode_correct (List.replicate 44 0) [1, -1, -32768]
    (by decide) (by decide)

/-- C5: for every audio path, if `transcribe` is called while no model
context is set, it returns the empty string, invokes no engine call and
reaches no audio file access. -/
theorem transcribe_uninitialized (st : BridgeState) (env : TranscribeEnv)
    (h : st.g_ctx = none) :
    transcribe st env = ("", ⟨false, false⟩) := by
  unfold transcribe
  rw [h]

/-- C5 witness: `transcribe` on the start state, with an arbitrary
environment. -/
theorem transcribe_uninitialized_witness :
    transcribe defaultState envNoRun = ("", ⟨false, false⟩) :=
  transcribe_uninitialized defaultState envNoRun rfl

/-- C6: every file of at most 44 bytes decodes to an empty sample
sequence, and `transcribe` on such a file returns the empty string
without invoking `whisper_full`, in every state. -/
theorem short_file_empty (bytes : List Nat) (st : BridgeState)
    (env : TranscribeEnv) (hlen : bytes.length ≤ 44)
    (hfc : env.fileContents = some bytes) :
    pcmData bytes = [] ∧
    (transcribe st env).1 = "" ∧
    (transcribe st env).2.engineCalled = false := by
  have hp : pcmData bytes = [] := by
    unfold pcmData decodeWav
    rw [List.drop_eq_nil_of_le hlen]
    rfl
  refine ⟨hp, ?_⟩
  unfold transcribe
  cases hctx : st.g_ctx with
  | none => exact ⟨rfl, rfl⟩
  | some c =>
    cases hpd : env.pathDecode with
    | none => exact ⟨rfl, rfl⟩
    | some p =>
      rw [hfc]
      simp [hp]

/-- C6 witness: a 44-byte file of zeros, in a state holding a model. -/
theorem short_file_empty_witness :
    pcmData (List.replicate 44 0) = [] ∧
    (transcribe stateWithHandle envShortFile).1 = "" ∧
    (transcribe stateWithHandle envShortFile).2.engineCalled = false :=
  short_file_empty (List.replicate 44 0) stateWithHandle envShortFile
    (by decide) rfl

/-- C7: `transcribeWithParams` sets `n_threads` to the supplied value
exactly when that value is positive, keeping the prior value otherwise,
and overwrites `translate` unconditionally. -/
theorem override_threads_translate (st : BridgeState)
    (langDecode : Option String) (tr : Bool) (th : Int)
    (env : TranscribeEnv) :
    ((transcribeWithParams st langDecode tr th env).2.1).params.n_threads =
      (if 0 < th then th else st.params.n_threads) ∧
    ((transcribeWithParams st langDecode tr th env).2.1).params.translate =
      tr := by
  unfold transcribeWithParams updateParams
  cases langDecode <;> dsimp only <;> split <;> exact ⟨rfl, rfl⟩

/-- C8: `releaseModel` always leaves the context unset and the
parameters untouched, is idempotent, and on a state with no context set
(such as one it produced itself) it changes nothing. -/
theorem release_idempotent (st : BridgeState) :
    (releaseModel st).g_ctx = none ∧
    (releaseModel st).params = st.params ∧
    releaseModel (releaseModel st) = releaseModel st ∧
    releaseModel ⟨none, st.params⟩ = ⟨none, st.params⟩ :=
  ⟨rfl, rfl, rfl, rfl⟩

/-- C9: every stub operation returns its fixed value for every input,
with no engine interaction and no filesystem access: `initModel` returns
-1, `transcribe` and `transcribeWithParams` return the empty string,
`releaseModel` is a no-op, and `getVersion` is a fixed placeholder. -/
theorem stub_fixed_values (p a l : String) (tr : Bool) (th : Int) :
    stub_initModel p = (-1, ⟨false, false⟩) ∧
    stub_transcribe a = ("", ⟨false, false⟩) ∧
    stub_transcribeWithParams a l tr th = ("", ⟨false, false⟩) ∧
    stub_releaseModel = ((), ⟨false, false⟩) ∧
    stub_getVersion = "stub-1.0 (whisper.cpp not available)" :=
  ⟨rfl, rfl, rfl, rfl, rfl⟩

/-- C10: the stub's `initModel` returns -1 for every input, the exact
status code the real bridge returns when the path string fails to
decode, so a caller observing -1 cannot tell the two builds apart. -/
theorem stub_init_matches_path_fail_code (p : String) (st : BridgeState)
    (env : InitEnv) (h : env.pathDecode = none) :
    (stub_initModel p).1 = -1 ∧
    (initModel st env).1 = -1 ∧
    (stub_initModel p).1 = (initModel st env).1 := by
  unfold stub_initModel initModel
  rw [h]
  exact ⟨rfl, rfl, rfl⟩

/-- C10 witness: a concrete path, a concrete state, the path-decode
failure environment. -/
theorem stub_init_matches_path_fail_code_witness :
    (stub_initModel "m").1 = -1 ∧
    (initModel defaultState envPathFail).1 = -1 ∧
    (stub_initModel "m").1 = (initModel defaultState envPathFail).1 :=
  stub_init_matches_path_fail_code "m" defaultState envPathFail rfl

/-- C2 counterexample: on a state holding context 7, `initModel` with a
failing path decode returns -1, yet the prior context has been passed to
`whisper_free` and the context pointer is left unset — the claim that
the previously existing handle is left untouched (still set, not
destroyed) is false. -/
theorem init_path_fail_destroys_handle_cex :
    stateWithHandle.g_ctx = some 7 ∧
    (initModel stateWithHandle envPathFail).1 = -1 ∧
    (initModel stateWithHandle envPathFail).2.1.g_ctx = none ∧
    (initModel stateWithHandle envPathFail).2.2.freed = [7] :=
  ⟨rfl, rfl, rfl, rfl⟩

/-- C2 amended: if the path string fails to decode, `initModel` returns
-1, the context pointer is left unset, and any previously existing
context has already been destroyed (freed) before the path was read. -/
theorem init_path_fail_amended (st : BridgeState) (env : InitEnv)
    (h : env.pathDecode = none) :
    (initModel st env).1 = -1 ∧
    (initModel st env).2.1.g_ctx = none ∧
    (initModel st env).2.2.freed = st.g_ctx.toList := by
  unfold initModel
  rw [h]
  exact ⟨rfl, rfl, rfl⟩

/-- C2 amended witness: the state holding context 7 and the path-decode
failure environment. -/
theorem init_path_fail_amended_witness :
    (initModel stateWithHandle envPathFail).1 = -1 ∧
    (initModel stateWithHandle envPathFail).2.1.g_ctx = none ∧
    (initModel stateWithHandle envPathFail).2.2.freed =
      stateWithHandle.g_ctx.toList :=
  init_path_fail_amended stateWithHandle envPathFail rfl

/-- C3 counterexample: the prior language is "en", the supplied language
string decodes to the empty string, and `transcribeWithParams` overwrites
the stored language with "" — an empty (but decodable) language argument
does not leave the language unchanged. -/
theorem override_empty_language_cex :
    defaultState.params.language = "en" ∧
    ((transcribeWithParams defaultState (some "") false 0
        envNoRun).2.1).params.language = "" ∧
    ((transcribeWithParams defaultState (some "") false 0
        envNoRun).2.1).params.language ≠ defaultState.params.language := by
  refine ⟨rfl, rfl, ?_⟩
  decide

/-- C3 amended: `transcribeWithParams` leaves the stored language
unchanged exactly when the supplied language string fails to decode;
whenever it decodes — the empty string included — the stored language is
overwritten with the decoded value. -/
theorem override_language_amended (st : BridgeState) (tr : Bool)
    (th : Int) (env : TranscribeEnv) :
    (∀ l, ((transcribeWithParams st (some l) tr th
        env).2.1).params.language = l) ∧
    ((transcribeWithParams st none tr th env).2.1).params.language =
      st.params.language := by
  constructor
  · intro l
    unfold transcribeWithParams updateParams
    dsimp only
    split <;> rfl
  · unfold transcribeWithParams updateParams
    dsimp only
    split <;> rfl

/-- An `initModel` environment whose path decodes and whose load
succeeds, on a machine reporting zero hardware concurrency (a value
`std::thread::hardware_concurrency()` is allowed to return). -/
def envInitZeroCores : InitEnv := ⟨some "m", some 1, 0⟩

/-- An `initModel` environment whose path decodes and whose load
succeeds, on a machine reporting one hardware thread. -/
def envInitOneCore : InitEnv := ⟨some "m", some 1, 1⟩

/-- The state after a successful `initModel` on a machine reporting zero
hardware concurrency. -/
def zeroThreadState : BridgeState := (initModel defaultState envInitZeroCores).2.1

/-- Along runs where every `initModel` observes positive hardware
concurrency, `n_threads` stays positive. -/
theorem nthreads_pos_of_reachable (st : BridgeState)
    (h : Relation.ReflTransGen StepPos defaultState st) :
    0 < st.params.n_threads := by
  induction h with
  | refl => decide
  | tail hprev hstep ih =>
    cases hstep with
    | init env hc =>
      obtain ⟨pd, lr, nc⟩ := env
      cases pd with
      | none => exact ih
      | some p =>
        cases lr with
        | none => exact ih
        | some hdl =>
          show 0 < min ((nc : Nat) : Int) 4
          have h1 : (1 : Int) ≤ (nc : Int) := by exact_mod_cast hc
          exact lt_min (by omega) (by norm_num)
    | override langDecode tr th env =>
      simp only [transcribeWithParams, updateParams]
      cases langDecode <;> dsimp only <;> split
      · assumption
      · exact ih
      · assumption
      · exact ih
    | release => exact ih

/-- C4 counterexample: before any `initModel` the thread count is the
member initializer 4, which differs from min(available cores, 4) on a
2-core machine; moreover a state with `n_threads = 0` is reachable in
one step, because a successful `initModel` on a machine reporting zero
hardware concurrency stores min(0, 4) = 0 — so the claimed positivity
invariant and the claimed default both fail. -/
theorem n_threads_invariant_cex :
    defaultState.params.n_threads = 4 ∧
    defaultState.params.n_threads ≠ min 2 4 ∧
    Relation.ReflTransGen Step defaultState zeroThreadState ∧
    zeroThreadState.params.n_threads = 0 := by
  refine ⟨rfl, by decide, ?_, by decide⟩
  exact Relation.ReflTransGen.single (Step.init defaultState envInitZeroCores)

/-- C4 amended: the default thread count before any `initModel` is 4;
every successful `initModel` sets it to min(hardware concurrency, 4);
overrides only ever write positive values — hence along every run in
which each `initModel` observes positive hardware concurrency,
`n_threads` is positive in every reachable state. -/
theorem n_threads_invariant_amended (st : BridgeState) (env : InitEnv)
    (hreach : Relation.ReflTransGen StepPos defaultState st)
    (hpath : env.pathDecode.isSome = true)
    (hload : env.loadResult.isSome = true) :
    defaultState.params.n_threads = 4 ∧
    0 < st.params.n_threads ∧
    (initModel st env).2.1.params.n_threads = min (env.nCores : Int) 4 := by
  obtain ⟨p, hp⟩ := Option.isSome_iff_exists.mp hpath
  obtain ⟨hdl, hl⟩ := Option.isSome_iff_exists.mp hload
  refine ⟨rfl, nthreads_pos_of_reachable st hreach, ?_⟩
  unfold initModel
  rw [hp, hl]

/-- C4 amended witness: the start state and a successful `initModel`
environment on a one-core machine. -/
theorem n_threads_invariant_amended_witness :
    defaultState.params.n_threads = 4 ∧
    0 < defaultState.params.n_threads ∧
    (initModel defaultState envInitOneCore).2.1.params.n_threads =
      min (envInitOneCore.nCores : Int) 4 :=
  n_threads_invariant_amended defaultState envInitOneCore
    Relation.ReflTransGen.refl rfl rfl

end WhisperJNI
